import Mathlib

/-!
# xautolock system tray icon (`trayicon.c`)

A shallow embedding of `src/src/trayicon.c`.

* The module's file-scope variables (`traySelectionAtom`, `trayOpcodeAtom`,
  `trayWindow`, `iconWindow`, `iconVisible`, `iconDisplay`) become the record
  `TrayState`, passed explicitly.
* The X connection `Display* d` becomes the record `Display`: the pointer value
  (`handle`), what the Xlib accessor macros read from it, and what the server
  answers to each request that returns a value.  Every call of an entry point
  takes its own `Display` value, so answers may differ from call to call.
* Every Xlib function call is recorded, in program order, as an `XCall`; an
  operation returns the new state and the list of calls it issued.  The accessor
  macros (`DefaultScreen`, `BlackPixel`, ...) only read the `Display` structure
  and are not recorded; neither are `sprintf` and `memset`.
* Array and string indexing is modelled with `Option`: an index outside the
  array (undefined behaviour in C) yields `none`.
* XIDs, atoms and pixel values are `Nat`.  X resource identifiers have their top
  three bits clear, so the `unsigned long` to `long` assignment into
  `data.l[2]` keeps the value; it is modelled as the identity.
-/

namespace TrayIcon

/-! ## Constants of `<X11/X.h>` used by the module -/

/-- Event type code `ClientMessage` of `<X11/X.h>`. -/
def ClientMessage : Nat := 33

/-- Timestamp placeholder `CurrentTime` (`0L`) of `<X11/X.h>`. -/
def CurrentTime : Nat := 0

/-- Empty event mask `NoEventMask` (`0L`) of `<X11/X.h>`. -/
def NoEventMask : Nat := 0

/-- Event mask bit `ExposureMask` (`1L<<15`) of `<X11/X.h>`. -/
def ExposureMask : Nat := 2 ^ 15

/-- Event mask bit `StructureNotifyMask` (`1L<<17`) of `<X11/X.h>`. -/
def StructureNotifyMask : Nat := 2 ^ 17

/-- Icon size, `#define ICON_SIZE 24`. -/
def ICON_SIZE : Nat := 24

/-! ## The X connection and the calls made on it -/

/-- The connection `Display* d` as the module sees it. -/
structure Display where
  /-- The pointer value `d` itself. -/
  handle : Nat
  /-- Value of `DefaultScreen (d)`. -/
  defaultScreen : Int
  /-- Value of `BlackPixel (d, screen)`. -/
  blackPixel : Int → Nat
  /-- Value of `WhitePixel (d, screen)`. -/
  whitePixel : Int → Nat
  /-- Value of `DefaultColormap (d, screen)`. -/
  defaultColormap : Int → Nat
  /-- Value of `DefaultDepth (d, screen)`. -/
  defaultDepth : Int → Nat
  /-- Value of `DefaultRootWindow (d)`. -/
  defaultRootWindow : Nat
  /-- Answer to `XAllocNamedColor (d, colormap, name, &c, &c)`: the returned status
  and the value left in `c.pixel`. -/
  allocNamedColor : Nat → String → Int × Nat
  /-- Answer to `XCreatePixmap (d, drawable, width, height, depth)`. -/
  createPixmap : Nat → Nat → Nat → Nat → Nat
  /-- Answer to `XCreateGC (d, drawable, valuemask, &values)`. -/
  createGC : Nat → Nat → Nat
  /-- Answer to `XInternAtom (d, name, only_if_exists)`. -/
  internAtom : String → Bool → Nat
  /-- Answer to `XGetSelectionOwner (d, selection)`. -/
  getSelectionOwner : Nat → Nat
  /-- Answer to `XCreateSimpleWindow (d, parent, x, y, width, height, border_width,
  border, background)`. -/
  createSimpleWindow : Nat → Int → Int → Nat → Nat → Nat → Nat → Nat → Nat

/-- The `xclient` view of `XEvent` (`XClientMessageEvent`), with `data.l`. -/
structure XEvent where
  type : Nat
  serial : Nat
  send_event : Nat
  display : Nat
  window : Nat
  message_type : Nat
  format : Nat
  data_l : List Nat
deriving DecidableEq, Repr

/-- The event after `memset (&ev, 0, sizeof (ev))`. -/
def XEvent.zeroed : XEvent :=
  { type := 0, serial := 0, send_event := 0, display := 0, window := 0,
    message_type := 0, format := 0, data_l := [0, 0, 0, 0, 0] }

/-- One Xlib function call with its arguments; the first argument is always the
display pointer. -/
inductive XCall where
  | XAllocNamedColor (d colormap : Nat) (name : String)
  | XCreatePixmap (d drawable width height depth : Nat)
  | XCreateGC (d drawable valuemask : Nat)
  | XSetForeground (d gc foreground : Nat)
  | XDrawPoint (d drawable gc x y : Nat)
  | XFreeGC (d gc : Nat)
  | XInternAtom (d : Nat) (name : String) (only_if_exists : Bool)
  | XGetSelectionOwner (d selection : Nat)
  | XCreateSimpleWindow (d parent : Nat) (x y : Int)
      (width height border_width border background : Nat)
  | XSelectInput (d w event_mask : Nat)
  | XSendEvent (d w : Nat) (propagate : Bool) (event_mask : Nat) (ev : XEvent)
  | XSetWindowBackgroundPixmap (d w pixmap : Nat)
  | XFreePixmap (d pixmap : Nat)
  | XMapWindow (d w : Nat)
  | XFlush (d : Nat)
  | XUnmapWindow (d w : Nat)
deriving DecidableEq, Repr

/-! ## The glyph -/

/-- XPM data for the lock-with-slash icon: 5 header rows, then the pixel rows. -/
def lockSlashXpm : List String := [
  "24 24 4 1",
  "  c None",
  ". c #000000",
  "+ c #FF0000",
  "@ c #FFFFFF",
  "                        ",
  "                        ",
  "        ........        ",
  "       ..      ..       ",
  "      ..        ..      ",
  "     ..          ..     ",
  "     .            .     ",
  "    ..   ++++++   ..    ",
  "   ....++......++....   ",
  "  ...++..........++...  ",
  "  ..++..@@@@@@@@..++..  ",
  "  .++...@@....@@...++.  ",
  "  .+....@@....@@....+.  ",
  "  .+....@@....@@....+.  ",
  "  ..++..@@....@@..++..  ",
  "  ...++..@@@@@@..++...  ",
  "   ....++......++....   ",
  "    ....++++++....      ",
  "      ........          ",
  "                        ",
  "                        ",
  "                        ",
  "                        ",
  "                        "
]

/-! ## `createIconPixmap` -/

/-- The body of the inner loop of `createIconPixmap`: the `XSetForeground` call
chosen by the `if` chain on `pixel`. -/
def setForegroundFor (d : Display) (gc blackPixel redPixel whitePixel : Nat)
    (pixel : Char) : XCall :=
  if pixel = '.' then
    XCall.XSetForeground d.handle gc blackPixel
  else if pixel = '+' then
    XCall.XSetForeground d.handle gc redPixel
  else if pixel = '@' then
    XCall.XSetForeground d.handle gc whitePixel
  else
    XCall.XSetForeground d.handle gc 0xC0C0C0

/-- The inner loop `for (x = 0; x < width && x < 24; x++)` of
`createIconPixmap`, entered with the loop variable at `x`: the calls issued from
there on, or `none` when `line[x]` is read outside the string. -/
def pixelLoop (d : Display) (pixmap gc blackPixel redPixel whitePixel : Nat)
    (line : String) (width y x : Nat) : Option (List XCall) :=
  if x < width ∧ x < 24 then
    match line.toList[x]? with
    | none => none
    | some pixel =>
      match pixelLoop d pixmap gc blackPixel redPixel whitePixel line width y (x + 1) with
      | none => none
      | some rest =>
        some (setForegroundFor d gc blackPixel redPixel whitePixel pixel ::
          XCall.XDrawPoint d.handle pixmap gc x y :: rest)
  else
    some []
termination_by width - x

/-- The outer loop `for (y = 0; y < height && y + 5 < 29; y++)` of
`createIconPixmap`, entered with the loop variable at `y`: the calls issued from
there on, or `none` when `lockSlashXpm[y + 5]` or `line[x]` is read out of
bounds. -/
def rowLoop (d : Display) (pixmap gc blackPixel redPixel whitePixel : Nat)
    (width height y : Nat) : Option (List XCall) :=
  if y < height ∧ y + 5 < 29 then
    match lockSlashXpm[y + 5]? with
    | none => none
    | some line =>
      match pixelLoop d pixmap gc blackPixel redPixel whitePixel line width y 0 with
      | none => none
      | some row =>
        match rowLoop d pixmap gc blackPixel redPixel whitePixel width height (y + 1) with
        | none => none
        | some rest => some (row ++ rest)
  else
    some []
termination_by height - y

/-- Parse the XPM data and create a pixmap: the returned pixmap and the calls
issued, or `none` when the glyph is read out of bounds. -/
def createIconPixmap (d : Display) (w : Nat) : Option (Nat × List XCall) :=
  let width := ICON_SIZE
  let height := ICON_SIZE
  let blackPixel := d.blackPixel d.defaultScreen
  let whitePixel := d.whitePixel d.defaultScreen
  let colormap := d.defaultColormap d.defaultScreen
  let redColor := d.allocNamedColor colormap "red"
  let redPixel := if redColor.1 ≠ 0 then redColor.2 else whitePixel
  let pixmap := d.createPixmap w width height (d.defaultDepth d.defaultScreen)
  let gc := d.createGC pixmap 0
  match rowLoop d pixmap gc blackPixel redPixel whitePixel width height 0 with
  | none => none
  | some drawn =>
    some (pixmap,
      [XCall.XAllocNamedColor d.handle colormap "red",
       XCall.XCreatePixmap d.handle w width height (d.defaultDepth d.defaultScreen),
       XCall.XCreateGC d.handle pixmap 0]
      ++ drawn ++ [XCall.XFreeGC d.handle gc])

/-! ## Module state and the three entry points -/

/-- The file-scope variables of `trayicon.c`. -/
structure TrayState where
  traySelectionAtom : Nat
  trayOpcodeAtom : Nat
  trayWindow : Nat
  iconWindow : Nat
  iconVisible : Bool
  iconDisplay : Nat
deriving DecidableEq, Repr

/-- The static initialisers: all handles `0`, `iconVisible = False`. -/
def initialState : TrayState :=
  { traySelectionAtom := 0, trayOpcodeAtom := 0, trayWindow := 0, iconWindow := 0,
    iconVisible := false, iconDisplay := 0 }

/-- Initialize tray icon support. -/
def initTrayIcon (d : Display) (s : TrayState) : TrayState × List XCall :=
  let screen := d.defaultScreen
  let s := { s with iconDisplay := d.handle }
  let traySelectionName := "_NET_SYSTEM_TRAY_S" ++ toString screen
  let s := { s with traySelectionAtom := d.internAtom traySelectionName false }
  let s := { s with trayOpcodeAtom := d.internAtom "_NET_SYSTEM_TRAY_OPCODE" false }
  let s := { s with trayWindow := d.getSelectionOwner s.traySelectionAtom }
  let calls :=
    [XCall.XInternAtom d.handle traySelectionName false,
     XCall.XInternAtom d.handle "_NET_SYSTEM_TRAY_OPCODE" false,
     XCall.XGetSelectionOwner d.handle s.traySelectionAtom]
  if s.trayWindow = 0 then
    (s, calls)
  else
    let s := { s with iconWindow :=
      d.createSimpleWindow d.defaultRootWindow 0 0 ICON_SIZE ICON_SIZE 0 0 0 }
    (s, calls ++
      [XCall.XCreateSimpleWindow d.handle d.defaultRootWindow 0 0 ICON_SIZE ICON_SIZE 0 0 0,
       XCall.XSelectInput d.handle s.iconWindow (ExposureMask ||| StructureNotifyMask)])

/-- The dock request built in `showTrayIcon`: `memset`, then the field
assignments in source order. -/
def dockRequest (s : TrayState) : XEvent :=
  let ev := XEvent.zeroed
  let ev := { ev with type := ClientMessage }
  let ev := { ev with window := s.trayWindow }
  let ev := { ev with message_type := s.trayOpcodeAtom }
  let ev := { ev with format := 32 }
  let ev := { ev with data_l := ev.data_l.set 0 CurrentTime }
  let ev := { ev with data_l := ev.data_l.set 1 0 }
  let ev := { ev with data_l := ev.data_l.set 2 s.iconWindow }
  let ev := { ev with data_l := ev.data_l.set 3 0 }
  let ev := { ev with data_l := ev.data_l.set 4 0 }
  ev

/-- Show the tray icon.  `none` only when `createIconPixmap` reads out of
bounds. -/
def showTrayIcon (d : Display) (s : TrayState) : Option (TrayState × List XCall) :=
  if s.trayWindow = 0 ∨ s.iconWindow = 0 ∨ s.iconVisible = true then
    some (s, [])
  else
    let ev := dockRequest s
    match createIconPixmap d s.iconWindow with
    | none => none
    | some (iconPixmap, drawing) =>
      some ({ s with iconVisible := true },
        [XCall.XSendEvent d.handle s.trayWindow false NoEventMask ev]
        ++ drawing ++
        [XCall.XSetWindowBackgroundPixmap d.handle s.iconWindow iconPixmap,
         XCall.XFreePixmap d.handle iconPixmap,
         XCall.XMapWindow d.handle s.iconWindow,
         XCall.XFlush d.handle])

/-- Hide the tray icon. -/
def hideTrayIcon (d : Display) (s : TrayState) : TrayState × List XCall :=
  if s.trayWindow = 0 ∨ s.iconWindow = 0 ∨ s.iconVisible = false then
    (s, [])
  else
    ({ s with iconVisible := false },
      [XCall.XUnmapWindow d.handle s.iconWindow, XCall.XFlush d.handle])

/-! ## Sequences of calls of the entry points -/

/-- One call of `showTrayIcon` or `hideTrayIcon`, with the connection as it
answers during that call. -/
inductive Op where
  | showTrayIcon (d : Display)
  | hideTrayIcon (d : Display)

/-- Run one call. -/
def step (op : Op) (s : TrayState) : Option (TrayState × List XCall) :=
  match op with
  | Op.showTrayIcon d => showTrayIcon d s
  | Op.hideTrayIcon d => some (hideTrayIcon d s)

/-- Run a sequence of calls, left to right, concatenating the calls issued. -/
def runOps : List Op → TrayState → Option (TrayState × List XCall)
  | [], s => some (s, [])
  | op :: ops, s =>
    match step op s with
    | none => none
    | some (s1, t1) =>
      match runOps ops s1 with
      | none => none
      | some (s2, t2) => some (s2, t1 ++ t2)

/-! ## Observations on a sequence of X calls -/

/-- The points plotted by a sequence of calls, in order, each with the
foreground in force in the GC it is drawn with; `fg` gives the foreground of
each GC at the start. -/
def plotted (fg : Nat → Nat) : List XCall → List ((Nat × Nat) × Nat)
  | [] => []
  | XCall.XSetForeground _ gc v :: cs => plotted (fun g => if g = gc then v else fg g) cs
  | XCall.XDrawPoint _ _ gc x y :: cs => ((x, y), fg gc) :: plotted fg cs
  | _ :: cs => plotted fg cs

/-- The value a plotted-point list leaves at a coordinate: that of the last
point plotted there, `none` when no point was. -/
def pixelAt : List ((Nat × Nat) × Nat) → Nat × Nat → Option Nat
  | [], _ => none
  | (q, c) :: rest, p =>
    match pixelAt rest p with
    | some v => some v
    | none => if q = p then some c else none

/-- Whether a call is `XMapWindow` or `XUnmapWindow`. -/
def isMapOrUnmap : XCall → Bool
  | XCall.XMapWindow _ _ => true
  | XCall.XUnmapWindow _ _ => true
  | _ => false

/-- Whether a call creates, installs, frees or draws into a pixmap. -/
def isPixmapCall : XCall → Bool
  | XCall.XCreatePixmap _ _ _ _ _ => true
  | XCall.XSetWindowBackgroundPixmap _ _ _ => true
  | XCall.XFreePixmap _ _ => true
  | XCall.XDrawPoint _ _ _ _ _ => true
  | _ => false

/-- Whether a call is `XSendEvent`. -/
def isSendEvent : XCall → Bool
  | XCall.XSendEvent _ _ _ _ _ => true
  | _ => false

/-- Whether a call is `XCreateSimpleWindow`. -/
def isCreateWindow : XCall → Bool
  | XCall.XCreateSimpleWindow _ _ _ _ _ _ _ _ _ => true
  | _ => false

/-- Whether window `w` is mapped after a sequence of calls, given whether it
was before. -/
def mappedAfter (w : Nat) : Bool → List XCall → Bool
  | m, [] => m
  | m, XCall.XMapWindow _ v :: cs => mappedAfter w (if v = w then true else m) cs
  | m, XCall.XUnmapWindow _ v :: cs => mappedAfter w (if v = w then false else m) cs
  | m, _ :: cs => mappedAfter w m cs

/-! ## The glyph as the specification describes it -/

/-- The character `lockSlashXpm[y + 5][x]`, `none` when either index is out of
bounds. -/
def glyphAt (x y : Nat) : Option Char :=
  match lockSlashXpm[y + 5]? with
  | none => none
  | some line => line.toList[x]?

/-- The pixel rows of the glyph: the XPM data without its 5 header rows. -/
def pixelRows : List (List Char) :=
  (lockSlashXpm.drop 5).map String.toList

/-- The cells of the glyph in row-major order, each with its coordinate
`(x, y)`. -/
def glyphCells : List ((Nat × Nat) × Char) :=
  pixelRows.enum.flatMap fun r => r.2.enum.map fun e => ((e.1, r.1), e.2)

/-- The coordinates `(x, y)` of the 24x24 grid in row-major order. -/
def gridCoords : List (Nat × Nat) :=
  (List.range 24).flatMap fun y => (List.range 24).map fun x => (x, y)

/-- The colour the specification assigns to a glyph character: outline,
accent, fill, and light gray for anything else. -/
def colourOf (blackPixel accentPixel whitePixel : Nat) (c : Char) : Nat :=
  if c = '.' then blackPixel
  else if c = '+' then accentPixel
  else if c = '@' then whitePixel
  else 0xC0C0C0

/-- The accent pixel `createIconPixmap` resolves: the allocated colour, or
`WhitePixel` when the allocation fails. -/
def accentPixel (d : Display) : Nat :=
  if (d.allocNamedColor (d.defaultColormap d.defaultScreen) "red").1 ≠ 0 then
    (d.allocNamedColor (d.defaultColormap d.defaultScreen) "red").2
  else d.whitePixel d.defaultScreen

/-- The pixmap handle `createIconPixmap` obtains for window `w`. -/
def pixmapOf (d : Display) (w : Nat) : Nat :=
  d.createPixmap w ICON_SIZE ICON_SIZE (d.defaultDepth d.defaultScreen)

/-- The GC handle `createIconPixmap` obtains for window `w`. -/
def gcOf (d : Display) (w : Nat) : Nat :=
  d.createGC (pixmapOf d w) 0

/-- The two calls the specification expects for one glyph cell. -/
def cellCalls (d : Display) (w : Nat) (e : (Nat × Nat) × Char) : List XCall :=
  [XCall.XSetForeground d.handle (gcOf d w)
     (colourOf (d.blackPixel d.defaultScreen) (accentPixel d) (d.whitePixel d.defaultScreen) e.2),
   XCall.XDrawPoint d.handle (pixmapOf d w) (gcOf d w) e.1.1 e.1.2]

/-- The whole call sequence the specification expects of `createIconPixmap`. -/
def renderCalls (d : Display) (w : Nat) : List XCall :=
  [XCall.XAllocNamedColor d.handle (d.defaultColormap d.defaultScreen) "red",
   XCall.XCreatePixmap d.handle w ICON_SIZE ICON_SIZE (d.defaultDepth d.defaultScreen),
   XCall.XCreateGC d.handle (pixmapOf d w) 0]
  ++ glyphCells.flatMap (cellCalls d w) ++ [XCall.XFreeGC d.handle (gcOf d w)]

/-- The calls of an effective `showTrayIcon`, in the order the specification
gives them: dock request, rendering, background pixmap, release, map, flush. -/
def showCalls (d : Display) (s : TrayState) : List XCall :=
  [XCall.XSendEvent d.handle s.trayWindow false NoEventMask (dockRequest s)]
  ++ renderCalls d s.iconWindow ++
  [XCall.XSetWindowBackgroundPixmap d.handle s.iconWindow (pixmapOf d s.iconWindow),
   XCall.XFreePixmap d.handle (pixmapOf d s.iconWindow),
   XCall.XMapWindow d.handle s.iconWindow,
   XCall.XFlush d.handle]

/-- Whether a call is one of the six Xlib functions `createIconPixmap` uses. -/
def isRenderCall : XCall → Bool
  | XCall.XAllocNamedColor _ _ _ => true
  | XCall.XCreatePixmap _ _ _ _ _ => true
  | XCall.XCreateGC _ _ _ => true
  | XCall.XSetForeground _ _ _ => true
  | XCall.XDrawPoint _ _ _ _ _ => true
  | XCall.XFreeGC _ _ => true
  | _ => false

/-- Whether a call is `XDrawPoint`. -/
def isDrawPoint : XCall → Bool
  | XCall.XDrawPoint _ _ _ _ _ => true
  | _ => false

/-- Whether a call is `XFlush`. -/
def isFlush : XCall → Bool
  | XCall.XFlush _ => true
  | _ => false

/-- The number of space characters in the 24x24 glyph region
`lockSlashXpm[5..28][0..23]`. -/
def spaceCount : Nat :=
  (((lockSlashXpm.drop 5).take 24).map fun line => (line.toList.take 24).count ' ').sum

/-- The reading of "the trace of `XMapWindow` / `XUnmapWindow` calls consists of
exactly two map/unmap pairs": map, unmap, map, unmap. -/
def twoMapUnmapPairs (tr : List XCall) : Prop :=
  ∃ da wa db wb dc wc dd wd,
    tr.filter isMapOrUnmap =
      [XCall.XMapWindow da wa, XCall.XUnmapWindow db wb,
       XCall.XMapWindow dc wc, XCall.XUnmapWindow dd wd]

/-! ## Sample connections and states -/

/-- A true-colour connection on which a tray manager (window 500) owns the
selection and the colour "red" can be allocated. -/
def trayDisplay : Display :=
  { handle := 1, defaultScreen := 0, blackPixel := fun _ => 0,
    whitePixel := fun _ => 0xFFFFFF, defaultColormap := fun _ => 32,
    defaultDepth := fun _ => 24, defaultRootWindow := 300,
    allocNamedColor := fun _ _ => (1, 0xFF0000),
    createPixmap := fun _ _ _ _ => 77, createGC := fun _ _ => 88,
    internAtom := fun name _ => name.length + 100,
    getSelectionOwner := fun _ => 500,
    createSimpleWindow := fun _ _ _ _ _ _ _ _ => 600 }

/-- The same connection with no owner of the tray selection. -/
def noTrayDisplay : Display :=
  { trayDisplay with getSelectionOwner := fun _ => 0 }

/-- The same connection on which allocating "red" fails. -/
def noColourDisplay : Display :=
  { trayDisplay with allocNamedColor := fun _ _ => (0, 0) }

/-- The state `initTrayIcon trayDisplay` leaves: tray manager 500, icon window
600, hidden. -/
def dockedState : TrayState :=
  { traySelectionAtom := 119, trayOpcodeAtom := 123, trayWindow := 500,
    iconWindow := 600, iconVisible := false, iconDisplay := 1 }

/-! ## Facts about the glyph data -/

set_option maxRecDepth 1000000

theorem lockSlashXpm_length : lockSlashXpm.length = 29 := by decide

theorem lockSlashXpm_rows (y : Nat) (hy : y < 24) :
    (lockSlashXpm[y + 5]?).map (fun l => l.toList.length) = some 24 := by
  revert y; decide

theorem glyphCells_length : glyphCells.length = 576 := by decide

theorem glyphCells_coords : glyphCells.map Prod.fst = gridCoords := by decide

theorem glyphCells_glyphAt :
    ∀ e ∈ glyphCells, glyphAt e.1.1 e.1.2 = some e.2 := by decide

/-! ## Closed form of `createIconPixmap` -/

theorem setForegroundFor_eq (d : Display) (gc b r w : Nat) (c : Char) :
    setForegroundFor d gc b r w c = XCall.XSetForeground d.handle gc (colourOf b r w c) := by
  unfold setForegroundFor colourOf
  split_ifs <;> rfl

theorem pixelLoop_eq (d : Display) (pm gc b r w : Nat) (line : String) (y : Nat)
    (hlen : 24 ≤ line.toList.length) :
    ∀ n x, x + n = 24 →
      pixelLoop d pm gc b r w line 24 y x =
        some ((List.range' x n).flatMap fun i =>
          [XCall.XSetForeground d.handle gc (colourOf b r w (line.toList.getD i ' ')),
           XCall.XDrawPoint d.handle pm gc i y]) := by
  intro n
  induction n with
  | zero =>
    intro x hx
    rw [pixelLoop]
    simp [show ¬ (x < 24) by omega]
  | succ n ih =>
    intro x hx
    have hx1 : x < 24 := by omega
    have hget : line.toList[x]? = some (line.toList.getD x ' ') := by
      rw [List.getD_eq_getElem?_getD, List.getElem?_eq_getElem (by omega)]
      rfl
    rw [pixelLoop]
    simp only [hx1, and_self, if_true, hget, ih (x + 1) (by omega), List.range'_succ,
      List.flatMap_cons, setForegroundFor_eq]
    rfl

theorem pixelLoop_short (d : Display) (pm gc b r w : Nat) (line : String) (y : Nat)
    (hlen : line.toList.length < 24) :
    ∀ n x, x + n = line.toList.length → pixelLoop d pm gc b r w line 24 y x = none := by
  intro n
  induction n with
  | zero =>
    intro x hx
    have hnone : line.toList[x]? = none := List.getElem?_eq_none (by omega)
    rw [pixelLoop, if_pos ⟨by omega, by omega⟩, hnone]
  | succ n ih =>
    intro x hx
    rw [pixelLoop, if_pos ⟨by omega, by omega⟩, ih (x + 1) (by omega)]
    split <;> rfl


theorem rowLoop_eq (d : Display) (pm gc b r w : Nat) :
    ∀ n y, y + n = 24 →
      rowLoop d pm gc b r w 24 24 y =
        some ((List.range' y n).flatMap fun j =>
          (List.range' 0 24).flatMap fun i =>
            [XCall.XSetForeground d.handle gc
               (colourOf b r w ((lockSlashXpm.getD (j + 5) "").toList.getD i ' ')),
             XCall.XDrawPoint d.handle pm gc i j]) := by
  intro n
  induction n with
  | zero =>
    intro y hy
    rw [rowLoop, if_neg (by omega)]
    rfl
  | succ n ih =>
    intro y hy
    have hy1 : y < 24 := by omega
    have hrow := lockSlashXpm_rows y hy1
    have hget : lockSlashXpm[y + 5]? = some (lockSlashXpm.getD (y + 5) "") := by
      rw [List.getD_eq_getElem?_getD]
      cases h : lockSlashXpm[y + 5]? with
      | none => rw [h] at hrow; cases hrow
      | some l => rfl
    have hlen : 24 ≤ (lockSlashXpm.getD (y + 5) "").toList.length := by
      rw [hget] at hrow
      simp only [Option.map_some', Option.some.injEq] at hrow
      omega
    rw [rowLoop, if_pos ⟨by omega, by omega⟩, hget]
    simp only [pixelLoop_eq d pm gc b r w _ y hlen 24 0 rfl, ih (y + 1) (by omega),
      List.range'_succ, List.flatMap_cons]


theorem rangeCells_eq :
    ((List.range' 0 24).flatMap fun j => (List.range' 0 24).map fun i =>
      ((i, j), (lockSlashXpm.getD (j + 5) "").toList.getD i ' ')) = glyphCells := by
  decide

theorem createIconPixmap_eq (d : Display) (w : Nat) :
    createIconPixmap d w = some (pixmapOf d w, renderCalls d w) := by
  unfold createIconPixmap
  simp only [ICON_SIZE, rowLoop_eq d _ _ _ _ _ 24 0 rfl]
  unfold renderCalls
  rw [← rangeCells_eq]
  simp only [List.flatMap_assoc, List.flatMap_map, cellCalls, pixmapOf, gcOf, accentPixel,
    ICON_SIZE]

/-! ## What the rendering plots -/

theorem plotted_cells (d : Display) (w : Nat) (tail : XCall) (htail : ∀ fg, plotted fg [tail] = []) :
    ∀ (cells : List ((Nat × Nat) × Char)) (fg : Nat → Nat),
      plotted fg (cells.flatMap (cellCalls d w) ++ [tail]) =
        cells.map fun e => (e.1,
          colourOf (d.blackPixel d.defaultScreen) (accentPixel d)
            (d.whitePixel d.defaultScreen) e.2) := by
  intro cells
  induction cells with
  | nil => intro fg; simpa using htail fg
  | cons e es ih =>
    intro fg
    simp only [List.flatMap_cons, cellCalls, List.cons_append, List.nil_append, plotted,
      List.map_cons, if_true]
    rw [← ih]
    rfl

theorem plotted_render (d : Display) (w : Nat) (cells : List ((Nat × Nat) × Char))
    (fg : Nat → Nat) :
    plotted fg
        ([XCall.XAllocNamedColor d.handle (d.defaultColormap d.defaultScreen) "red",
          XCall.XCreatePixmap d.handle w ICON_SIZE ICON_SIZE (d.defaultDepth d.defaultScreen),
          XCall.XCreateGC d.handle (pixmapOf d w) 0]
          ++ cells.flatMap (cellCalls d w) ++ [XCall.XFreeGC d.handle (gcOf d w)]) =
      cells.map fun e => (e.1,
        colourOf (d.blackPixel d.defaultScreen) (accentPixel d)
          (d.whitePixel d.defaultScreen) e.2) := by
  simp only [List.cons_append, List.nil_append, plotted, List.append_assoc]
  exact plotted_cells d w (XCall.XFreeGC d.handle (gcOf d w)) (fun _ => rfl) cells fg

theorem plotted_renderCalls (d : Display) (w : Nat) (fg : Nat → Nat) :
    plotted fg (renderCalls d w) =
      glyphCells.map fun e => (e.1,
        colourOf (d.blackPixel d.defaultScreen) (accentPixel d)
          (d.whitePixel d.defaultScreen) e.2) :=
  plotted_render d w glyphCells fg

theorem pixelAt_absent (f : Char → Nat) (p : Nat × Nat) :
    ∀ cells : List ((Nat × Nat) × Char), p ∉ cells.map Prod.fst →
      pixelAt (cells.map fun e => (e.1, f e.2)) p = none := by
  intro cells
  induction cells with
  | nil => intro _; rfl
  | cons e es ih =>
    intro hp
    simp only [List.map_cons, List.mem_cons, not_or] at hp
    simp only [List.map_cons, pixelAt, ih hp.2]
    rw [if_neg (fun h => hp.1 h.symm)]

theorem pixelAt_present (f : Char → Nat) :
    ∀ cells : List ((Nat × Nat) × Char), (cells.map Prod.fst).Nodup →
      ∀ e ∈ cells, pixelAt (cells.map fun e => (e.1, f e.2)) e.1 = some (f e.2) := by
  intro cells
  induction cells with
  | nil => intro _ e he; cases he
  | cons c cs ih =>
    intro hnd e he
    simp only [List.map_cons, List.nodup_cons] at hnd
    simp only [List.map_cons, pixelAt]
    rcases List.mem_cons.1 he with rfl | hmem
    · rw [pixelAt_absent f e.1 cs hnd.1]
      simp
    · rw [ih hnd.2 e hmem]

theorem gridCoords_rowMajor :
    gridCoords.Pairwise fun p q => p.2 < q.2 ∨ (p.2 = q.2 ∧ p.1 < q.1) := by
  unfold gridCoords
  rw [List.pairwise_flatMap]
  constructor
  · intro y _
    rw [List.pairwise_map]
    exact (List.pairwise_lt_range 24).imp fun h => Or.inr ⟨rfl, h⟩
  · refine (List.pairwise_lt_range 24).imp ?_
    intro a b hab p hp q hq
    obtain ⟨_, _, rfl⟩ := List.mem_map.1 hp
    obtain ⟨_, _, rfl⟩ := List.mem_map.1 hq
    exact Or.inl hab

theorem gridCoords_nodup : gridCoords.Nodup := by
  refine gridCoords_rowMajor.imp ?_
  rintro p q h rfl
  rcases h with h | ⟨_, h⟩ <;> exact Nat.lt_irrefl _ h

theorem mem_gridCoords (p : Nat × Nat) : p ∈ gridCoords ↔ p.1 < 24 ∧ p.2 < 24 := by
  unfold gridCoords
  simp only [List.mem_flatMap, List.mem_map, List.mem_range]
  constructor
  · rintro ⟨y, hy, x, hx, rfl⟩
    exact ⟨hx, hy⟩
  · rintro ⟨hx, hy⟩
    exact ⟨p.2, hy, p.1, hx, rfl⟩

theorem mem_glyphCells (x y : Nat) (c : Char) (hx : x < 24) (hy : y < 24)
    (hc : glyphAt x y = some c) : ((x, y), c) ∈ glyphCells := by
  have hmem : (x, y) ∈ glyphCells.map Prod.fst := by
    rw [glyphCells_coords]
    exact (mem_gridCoords (x, y)).2 ⟨hx, hy⟩
  obtain ⟨e, he, hfst⟩ := List.mem_map.1 hmem
  have hat := glyphCells_glyphAt e he
  rw [hfst] at hat
  simp only [hc, Option.some.injEq] at hat
  have : e = ((x, y), c) := by
    rw [← hfst, hat]
  rw [← this]
  exact he


/-! ## Closed forms of `showTrayIcon` and `hideTrayIcon` -/

theorem renderCalls_isRenderCall (d : Display) (w : Nat) :
    ∀ c ∈ renderCalls d w, isRenderCall c = true := by
  intro c hc
  unfold renderCalls at hc
  simp only [List.mem_append, List.mem_cons, List.mem_singleton, List.mem_flatMap, cellCalls,
    List.not_mem_nil, or_false] at hc
  rcases hc with ((rfl | rfl | rfl) | ⟨e, _, rfl | rfl⟩) | rfl <;> rfl

theorem filter_renderCalls (d : Display) (w : Nat) (p : XCall → Bool)
    (hp : ∀ c, isRenderCall c = true → p c = false) :
    (renderCalls d w).filter p = [] := by
  rw [List.filter_eq_nil_iff]
  intro c hc
  rw [hp c (renderCalls_isRenderCall d w c hc)]
  exact Bool.false_ne_true

theorem showTrayIcon_noop (d : Display) (s : TrayState)
    (h : s.trayWindow = 0 ∨ s.iconWindow = 0 ∨ s.iconVisible = true) :
    showTrayIcon d s = some (s, []) := by
  unfold showTrayIcon
  rw [if_pos h]

theorem showTrayIcon_effective (d : Display) (s : TrayState)
    (ht : s.trayWindow ≠ 0) (hi : s.iconWindow ≠ 0) (hv : s.iconVisible = false) :
    showTrayIcon d s = some ({ s with iconVisible := true }, showCalls d s) := by
  unfold showTrayIcon
  rw [if_neg (by simp [ht, hi, hv]), createIconPixmap_eq]
  rfl

theorem hideTrayIcon_noop (d : Display) (s : TrayState)
    (h : s.trayWindow = 0 ∨ s.iconWindow = 0 ∨ s.iconVisible = false) :
    hideTrayIcon d s = (s, []) := by
  unfold hideTrayIcon
  rw [if_pos h]

theorem hideTrayIcon_effective (d : Display) (s : TrayState)
    (ht : s.trayWindow ≠ 0) (hi : s.iconWindow ≠ 0) (hv : s.iconVisible = true) :
    hideTrayIcon d s =
      ({ s with iconVisible := false },
        [XCall.XUnmapWindow d.handle s.iconWindow, XCall.XFlush d.handle]) := by
  unfold hideTrayIcon
  rw [if_neg (by simp [ht, hi, hv])]

theorem showTrayIcon_total (d : Display) (s : TrayState) :
    ∃ s1 t1, showTrayIcon d s = some (s1, t1) ∧
      s1.trayWindow = s.trayWindow ∧ s1.iconWindow = s.iconWindow ∧
      s1.traySelectionAtom = s.traySelectionAtom ∧ s1.trayOpcodeAtom = s.trayOpcodeAtom ∧
      s1.iconDisplay = s.iconDisplay ∧
      (s1.iconVisible = true ↔
        s.iconVisible = true ∨ (s.trayWindow ≠ 0 ∧ s.iconWindow ≠ 0)) := by
  by_cases h : s.trayWindow = 0 ∨ s.iconWindow = 0 ∨ s.iconVisible = true
  · refine ⟨s, [], showTrayIcon_noop d s h, rfl, rfl, rfl, rfl, rfl, ?_⟩
    constructor
    · intro hv; exact Or.inl hv
    · rintro (hv | ⟨ht, hi⟩)
      · exact hv
      · rcases h with h | h | h
        · exact absurd h ht
        · exact absurd h hi
        · exact h
  · have ht : s.trayWindow ≠ 0 := fun e => h (Or.inl e)
    have hi : s.iconWindow ≠ 0 := fun e => h (Or.inr (Or.inl e))
    have hv : s.iconVisible = false := by
      cases hb : s.iconVisible
      · rfl
      · exact absurd (Or.inr (Or.inr hb)) h
    exact ⟨_, _, showTrayIcon_effective d s ht hi hv, rfl, rfl, rfl, rfl, rfl,
      ⟨fun _ => Or.inr ⟨ht, hi⟩, fun _ => rfl⟩⟩

theorem hideTrayIcon_frame (d : Display) (s : TrayState) :
    (hideTrayIcon d s).1.trayWindow = s.trayWindow ∧
    (hideTrayIcon d s).1.iconWindow = s.iconWindow ∧
    (hideTrayIcon d s).1.traySelectionAtom = s.traySelectionAtom ∧
    (hideTrayIcon d s).1.trayOpcodeAtom = s.trayOpcodeAtom ∧
    (hideTrayIcon d s).1.iconDisplay = s.iconDisplay ∧
    ((hideTrayIcon d s).1.iconVisible = true → s.iconVisible = true) := by
  unfold hideTrayIcon
  split_ifs with h
  · exact ⟨rfl, rfl, rfl, rfl, rfl, fun h => h⟩
  · refine ⟨rfl, rfl, rfl, rfl, rfl, ?_⟩
    intro hv
    cases hv

theorem filter_showCalls_mapUnmap (d : Display) (s : TrayState) :
    (showCalls d s).filter isMapOrUnmap = [XCall.XMapWindow d.handle s.iconWindow] := by
  unfold showCalls
  rw [List.filter_append, List.filter_append,
    filter_renderCalls d s.iconWindow isMapOrUnmap (by intro c; cases c <;> simp [isRenderCall, isMapOrUnmap])]
  rfl

theorem filter_showCalls_flush (d : Display) (s : TrayState) :
    (showCalls d s).filter isFlush = [XCall.XFlush d.handle] := by
  unfold showCalls
  rw [List.filter_append, List.filter_append,
    filter_renderCalls d s.iconWindow isFlush (by intro c; cases c <;> simp [isRenderCall, isFlush])]
  rfl

/-! ## Sequences of calls -/

theorem runOps_nil (s : TrayState) : runOps [] s = some (s, []) := rfl

theorem runOps_cons (op : Op) (ops : List Op) (s s1 : TrayState) (t1 : List XCall)
    (h : step op s = some (s1, t1)) :
    runOps (op :: ops) s = (runOps ops s1).map fun r => (r.1, t1 ++ r.2) := by
  simp only [runOps, h]
  cases runOps ops s1 with
  | none => rfl
  | some r => rfl

theorem runOps_single (op : Op) (s s1 : TrayState) (t1 : List XCall)
    (h : step op s = some (s1, t1)) : runOps [op] s = some (s1, t1) := by
  rw [runOps_cons op [] s s1 t1 h, runOps_nil]
  simp

theorem runOps_noop (op : Op) (ops : List Op) (s : TrayState)
    (h : step op s = some (s, [])) : runOps (op :: ops) s = runOps ops s := by
  rw [runOps_cons op ops s s [] h]
  cases runOps ops s with
  | none => rfl
  | some r => rfl

/-- C1: running `showTrayIcon` (resp. `hideTrayIcon`) twice in succession, whatever the
module state and whatever the connection answers, ends in the same state as running it
once; the second run returns that state unchanged and issues no X call, so two runs issue
exactly the calls of one run and leave every window mapped as one run does. -/
theorem showTrayIcon_hideTrayIcon_idempotent (d1 d2 : Display) (s : TrayState)
    (w : Nat) (m : Bool) :
    (∃ s1 t1 t2, showTrayIcon d1 s = some (s1, t1) ∧
        showTrayIcon d2 s1 = some (s1, t2) ∧ t2 = [] ∧
        runOps [Op.showTrayIcon d1] s = some (s1, t1) ∧
        runOps [Op.showTrayIcon d1, Op.showTrayIcon d2] s = some (s1, t1 ++ t2) ∧
        mappedAfter w m (t1 ++ t2) = mappedAfter w m t1) ∧
    (∃ s1 t1 t2, hideTrayIcon d1 s = (s1, t1) ∧
        hideTrayIcon d2 s1 = (s1, t2) ∧ t2 = [] ∧
        runOps [Op.hideTrayIcon d1] s = some (s1, t1) ∧
        runOps [Op.hideTrayIcon d1, Op.hideTrayIcon d2] s = some (s1, t1 ++ t2) ∧
        mappedAfter w m (t1 ++ t2) = mappedAfter w m t1) := by
  constructor
  · obtain ⟨s1, t1, h1, ht, hi, _, _, _, hv⟩ := showTrayIcon_total d1 s
    have h2 : showTrayIcon d2 s1 = some (s1, []) := by
      apply showTrayIcon_noop
      by_cases e1 : s1.trayWindow = 0
      · exact Or.inl e1
      · by_cases e2 : s1.iconWindow = 0
        · exact Or.inr (Or.inl e2)
        · exact Or.inr (Or.inr (hv.2 (Or.inr ⟨ht ▸ e1, hi ▸ e2⟩)))
    have g1 : step (Op.showTrayIcon d1) s = some (s1, t1) := h1
    have g2 : step (Op.showTrayIcon d2) s1 = some (s1, []) := h2
    refine ⟨s1, t1, [], h1, h2, rfl, runOps_single _ s s1 t1 g1, ?_, by rw [List.append_nil]⟩
    rw [runOps_cons _ _ s s1 t1 g1, runOps_single _ s1 s1 [] g2]
    simp
  · rcases hh : hideTrayIcon d1 s with ⟨s1, t1⟩
    have g1 : step (Op.hideTrayIcon d1) s = some (s1, t1) := congrArg some hh
    have hs1 : s1.trayWindow = 0 ∨ s1.iconWindow = 0 ∨ s1.iconVisible = false := by
      unfold hideTrayIcon at hh
      split_ifs at hh with h
      · cases hh
        exact h
      · cases hh
        exact Or.inr (Or.inr rfl)
    have h2 := hideTrayIcon_noop d2 s1 hs1
    have g2 : step (Op.hideTrayIcon d2) s1 = some (s1, []) := congrArg some h2
    refine ⟨s1, t1, [], rfl, h2, rfl, runOps_single _ s s1 t1 g1, ?_, by rw [List.append_nil]⟩
    rw [runOps_cons _ _ s s1 t1 g1, runOps_single _ s1 s1 [] g2]
    simp

theorem runOps_disabled (s : TrayState) (h : s.trayWindow = 0 ∨ s.iconWindow = 0) :
    ∀ ops : List Op, runOps ops s = some (s, []) := by
  intro ops
  induction ops with
  | nil => rfl
  | cons op ops ih =>
    have hstep : step op s = some (s, []) := by
      cases op with
      | showTrayIcon d =>
        exact showTrayIcon_noop d s (by rcases h with h | h; exact Or.inl h; exact Or.inr (Or.inl h))
      | hideTrayIcon d =>
        exact congrArg some
          (hideTrayIcon_noop d s (by rcases h with h | h; exact Or.inl h; exact Or.inr (Or.inl h)))
    rw [runOps_noop op ops s hstep, ih]

/-- C2: when `XGetSelectionOwner` answers 0 during `initTrayIcon` on the initial state, the
initialisation issues no `XCreateSimpleWindow` (only the two `XInternAtom` calls and the
owner query), leaves `trayWindow = 0`, `iconWindow = 0` and `iconVisible = False`, and every
later sequence of `showTrayIcon` / `hideTrayIcon` calls issues no X call at all and leaves the
state unchanged. -/
theorem no_tray_safety (d : Display) (ops : List Op)
    (h : d.getSelectionOwner
      (d.internAtom ("_NET_SYSTEM_TRAY_S" ++ toString d.defaultScreen) false) = 0) :
    (initTrayIcon d initialState).1.trayWindow = 0 ∧
    (initTrayIcon d initialState).1.iconWindow = 0 ∧
    (initTrayIcon d initialState).1.iconVisible = false ∧
    (initTrayIcon d initialState).2 =
      [XCall.XInternAtom d.handle ("_NET_SYSTEM_TRAY_S" ++ toString d.defaultScreen) false,
       XCall.XInternAtom d.handle "_NET_SYSTEM_TRAY_OPCODE" false,
       XCall.XGetSelectionOwner d.handle
         (d.internAtom ("_NET_SYSTEM_TRAY_S" ++ toString d.defaultScreen) false)] ∧
    (initTrayIcon d initialState).2.filter isCreateWindow = [] ∧
    runOps ops (initTrayIcon d initialState).1 = some ((initTrayIcon d initialState).1, []) := by
  have hinit : initTrayIcon d initialState =
      ({ initialState with
          iconDisplay := d.handle
          traySelectionAtom :=
            d.internAtom ("_NET_SYSTEM_TRAY_S" ++ toString d.defaultScreen) false
          trayOpcodeAtom := d.internAtom "_NET_SYSTEM_TRAY_OPCODE" false
          trayWindow := 0 },
       [XCall.XInternAtom d.handle ("_NET_SYSTEM_TRAY_S" ++ toString d.defaultScreen) false,
        XCall.XInternAtom d.handle "_NET_SYSTEM_TRAY_OPCODE" false,
        XCall.XGetSelectionOwner d.handle
          (d.internAtom ("_NET_SYSTEM_TRAY_S" ++ toString d.defaultScreen) false)]) := by
    unfold initTrayIcon
    simp only [h, if_true]
  rw [hinit]
  exact ⟨rfl, rfl, rfl, rfl, rfl, runOps_disabled _ (Or.inl rfl) ops⟩

/-- C2 at a concrete connection without a tray manager, followed by show, hide, show. -/
theorem no_tray_safety_witness :
    noTrayDisplay.getSelectionOwner
      (noTrayDisplay.internAtom ("_NET_SYSTEM_TRAY_S" ++ toString noTrayDisplay.defaultScreen)
        false) = 0 ∧
    (initTrayIcon noTrayDisplay initialState).1.iconWindow = 0 ∧
    runOps [Op.showTrayIcon trayDisplay, Op.hideTrayIcon trayDisplay, Op.showTrayIcon trayDisplay]
      (initTrayIcon noTrayDisplay initialState).1 =
        some ((initTrayIcon noTrayDisplay initialState).1, []) :=
  ⟨rfl,
   (no_tray_safety noTrayDisplay
     [Op.showTrayIcon trayDisplay, Op.hideTrayIcon trayDisplay, Op.showTrayIcon trayDisplay] rfl).2.1,
   (no_tray_safety noTrayDisplay
     [Op.showTrayIcon trayDisplay, Op.hideTrayIcon trayDisplay, Op.showTrayIcon trayDisplay] rfl).2.2.2.2.2⟩

/-! ## The dock request -/

theorem dockRequest_eq (s : TrayState) :
    dockRequest s =
      { type := ClientMessage, serial := 0, send_event := 0, display := 0,
        window := s.trayWindow, message_type := s.trayOpcodeAtom, format := 32,
        data_l := [CurrentTime, 0, s.iconWindow, 0, 0] } := rfl

theorem initTrayIcon_atoms (d : Display) (s : TrayState) :
    (initTrayIcon d s).1.trayOpcodeAtom = d.internAtom "_NET_SYSTEM_TRAY_OPCODE" false ∧
    (initTrayIcon d s).1.traySelectionAtom =
      d.internAtom ("_NET_SYSTEM_TRAY_S" ++ toString d.defaultScreen) false ∧
    (initTrayIcon d s).1.iconDisplay = d.handle ∧
    (initTrayIcon d s).1.iconVisible = s.iconVisible ∧
    (initTrayIcon d s).1.trayWindow = d.getSelectionOwner
      (d.internAtom ("_NET_SYSTEM_TRAY_S" ++ toString d.defaultScreen) false) := by
  unfold initTrayIcon
  simp only
  split_ifs <;> exact ⟨rfl, rfl, rfl, rfl, rfl⟩

/-- C5: every effective `showTrayIcon` (tray window and icon window non-zero, icon hidden)
issues `XSendEvent` exactly once, as its first call, to `trayWindow`, with `propagate` False
and event mask `NoEventMask` (0); the event is a `ClientMessage` whose window is `trayWindow`,
whose message type is `trayOpcodeAtom` (after `initTrayIcon`: the atom interned for
`_NET_SYSTEM_TRAY_OPCODE`), whose format is 32 and whose payload is
`[CurrentTime (0), 0, iconWindow, 0, 0]`, every other field being zero. -/
theorem dock_request_shape (d d0 : Display) (s s0 : TrayState)
    (ht : s.trayWindow ≠ 0) (hi : s.iconWindow ≠ 0) (hv : s.iconVisible = false) :
    ∃ s1 ev rest,
      showTrayIcon d s = some (s1, XCall.XSendEvent d.handle s.trayWindow false 0 ev :: rest) ∧
      rest.filter isSendEvent = [] ∧
      NoEventMask = 0 ∧ CurrentTime = 0 ∧
      ev.type = ClientMessage ∧ ev.window = s.trayWindow ∧
      ev.message_type = s.trayOpcodeAtom ∧ ev.format = 32 ∧
      ev.data_l = [CurrentTime, 0, s.iconWindow, 0, 0] ∧
      ev.data_l[1]? = some 0 ∧ ev.data_l[2]? = some s.iconWindow ∧
      ev.serial = 0 ∧ ev.send_event = 0 ∧ ev.display = 0 ∧
      (initTrayIcon d0 s0).1.trayOpcodeAtom = d0.internAtom "_NET_SYSTEM_TRAY_OPCODE" false := by
  refine ⟨_, dockRequest s,
    renderCalls d s.iconWindow ++
      [XCall.XSetWindowBackgroundPixmap d.handle s.iconWindow (pixmapOf d s.iconWindow),
       XCall.XFreePixmap d.handle (pixmapOf d s.iconWindow),
       XCall.XMapWindow d.handle s.iconWindow,
       XCall.XFlush d.handle],
    showTrayIcon_effective d s ht hi hv, ?_, rfl, rfl, rfl, rfl, rfl,
    rfl, rfl, rfl, rfl, rfl, rfl, rfl, (initTrayIcon_atoms d0 s0).1⟩
  rw [List.filter_append,
    filter_renderCalls d s.iconWindow isSendEvent
      (by intro c; cases c <;> simp [isRenderCall, isSendEvent])]
  rfl

/-- C5 at the sample connection and the state its initialisation leaves. -/
theorem dock_request_shape_witness :
    dockedState.trayWindow ≠ 0 ∧ dockedState.iconWindow ≠ 0 ∧
    dockedState.iconVisible = false ∧
    ∃ s1 ev rest,
      showTrayIcon trayDisplay dockedState =
        some (s1, XCall.XSendEvent trayDisplay.handle dockedState.trayWindow false 0 ev :: rest) ∧
      rest.filter isSendEvent = [] ∧
      NoEventMask = 0 ∧ CurrentTime = 0 ∧
      ev.type = ClientMessage ∧ ev.window = dockedState.trayWindow ∧
      ev.message_type = dockedState.trayOpcodeAtom ∧ ev.format = 32 ∧
      ev.data_l = [CurrentTime, 0, dockedState.iconWindow, 0, 0] ∧
      ev.data_l[1]? = some 0 ∧ ev.data_l[2]? = some dockedState.iconWindow ∧
      ev.serial = 0 ∧ ev.send_event = 0 ∧ ev.display = 0 ∧
      (initTrayIcon trayDisplay initialState).1.trayOpcodeAtom =
        trayDisplay.internAtom "_NET_SYSTEM_TRAY_OPCODE" false :=
  ⟨by decide, by decide, rfl,
   dock_request_shape trayDisplay trayDisplay dockedState initialState
     (by decide) (by decide) rfl⟩

/-! ## The hide, show, hide, hide, show scenario -/

theorem scenario_run (d1 d2 d3 d4 d5 : Display) (s : TrayState)
    (ht : s.trayWindow ≠ 0) (hi : s.iconWindow ≠ 0) (hv : s.iconVisible = false) :
    runOps [Op.hideTrayIcon d1, Op.showTrayIcon d2, Op.hideTrayIcon d3, Op.hideTrayIcon d4,
        Op.showTrayIcon d5] s =
      some ({ s with iconVisible := true },
        showCalls d2 s ++ ([XCall.XUnmapWindow d3.handle s.iconWindow, XCall.XFlush d3.handle]
          ++ showCalls d5 s)) := by
  have hs : ({ s with iconVisible := false } : TrayState) = s := by
    cases s
    simp only at hv
    simp only [hv]
  have e1 : step (Op.hideTrayIcon d1) s = some (s, []) :=
    congrArg some (hideTrayIcon_noop d1 s (Or.inr (Or.inr hv)))
  have e2 : step (Op.showTrayIcon d2) s = some ({ s with iconVisible := true }, showCalls d2 s) :=
    showTrayIcon_effective d2 s ht hi hv
  have e3 : step (Op.hideTrayIcon d3) { s with iconVisible := true } =
      some (s, [XCall.XUnmapWindow d3.handle s.iconWindow, XCall.XFlush d3.handle]) := by
    have := hideTrayIcon_effective d3 { s with iconVisible := true } ht hi rfl
    simp only [hs] at this
    exact congrArg some this
  have e5 : step (Op.showTrayIcon d5) s = some ({ s with iconVisible := true }, showCalls d5 s) :=
    showTrayIcon_effective d5 s ht hi hv
  have e4 : step (Op.hideTrayIcon d4) s = some (s, []) :=
    congrArg some (hideTrayIcon_noop d4 s (Or.inr (Or.inr hv)))
  rw [runOps_noop _ _ s e1, runOps_cons _ _ s _ _ e2, runOps_cons _ _ _ s _ e3,
    runOps_noop _ _ s e4, runOps_single _ s _ _ e5]
  rfl

theorem scenario_mapUnmap (d2 d3 d5 : Display) (s : TrayState) :
    (showCalls d2 s ++ ([XCall.XUnmapWindow d3.handle s.iconWindow, XCall.XFlush d3.handle]
        ++ showCalls d5 s)).filter isMapOrUnmap =
      [XCall.XMapWindow d2.handle s.iconWindow, XCall.XUnmapWindow d3.handle s.iconWindow,
       XCall.XMapWindow d5.handle s.iconWindow] := by
  rw [List.filter_append, List.filter_append, filter_showCalls_mapUnmap,
    filter_showCalls_mapUnmap]
  rfl

/-- C6 (as amended): starting Hidden with tray window and icon window non-zero, the sequence
hide, show, hide, hide, show ends Shown; its `XMapWindow` / `XUnmapWindow` calls are exactly
map, unmap, map on the icon window (two maps and one unmap, three effective calls), and the
first and the fourth call (the redundant hides) issue no X call and leave the state unchanged. -/
theorem hide_show_hide_hide_show (d1 d2 d3 d4 d5 : Display) (s : TrayState)
    (ht : s.trayWindow ≠ 0) (hi : s.iconWindow ≠ 0) (hv : s.iconVisible = false) :
    ∃ s5 tr,
      runOps [Op.hideTrayIcon d1, Op.showTrayIcon d2, Op.hideTrayIcon d3, Op.hideTrayIcon d4,
        Op.showTrayIcon d5] s = some (s5, tr) ∧
      s5.iconVisible = true ∧
      tr.filter isMapOrUnmap =
        [XCall.XMapWindow d2.handle s.iconWindow, XCall.XUnmapWindow d3.handle s.iconWindow,
         XCall.XMapWindow d5.handle s.iconWindow] ∧
      hideTrayIcon d1 s = (s, []) ∧
      runOps [Op.hideTrayIcon d1, Op.showTrayIcon d2, Op.hideTrayIcon d3] s =
        some (s, showCalls d2 s ++
          [XCall.XUnmapWindow d3.handle s.iconWindow, XCall.XFlush d3.handle]) ∧
      hideTrayIcon d4 s = (s, []) := by
  refine ⟨_, _, scenario_run d1 d2 d3 d4 d5 s ht hi hv, rfl, scenario_mapUnmap d2 d3 d5 s,
    hideTrayIcon_noop d1 s (Or.inr (Or.inr hv)), ?_, hideTrayIcon_noop d4 s (Or.inr (Or.inr hv))⟩
  have hs : ({ s with iconVisible := false } : TrayState) = s := by
    cases s
    simp only at hv
    simp only [hv]
  have e1 : step (Op.hideTrayIcon d1) s = some (s, []) :=
    congrArg some (hideTrayIcon_noop d1 s (Or.inr (Or.inr hv)))
  have e2 : step (Op.showTrayIcon d2) s = some ({ s with iconVisible := true }, showCalls d2 s) :=
    showTrayIcon_effective d2 s ht hi hv
  have e3 : step (Op.hideTrayIcon d3) { s with iconVisible := true } =
      some (s, [XCall.XUnmapWindow d3.handle s.iconWindow, XCall.XFlush d3.handle]) := by
    have := hideTrayIcon_effective d3 { s with iconVisible := true } ht hi rfl
    simp only [hs] at this
    exact congrArg some this
  rw [runOps_noop _ _ s e1, runOps_cons _ _ s _ _ e2, runOps_single _ _ s _ e3]
  rfl

/-- C6 at the sample connection and state. -/
theorem hide_show_hide_hide_show_witness :
    dockedState.trayWindow ≠ 0 ∧ dockedState.iconWindow ≠ 0 ∧
    dockedState.iconVisible = false ∧
    ∃ s5 tr,
      runOps [Op.hideTrayIcon trayDisplay, Op.showTrayIcon trayDisplay,
        Op.hideTrayIcon trayDisplay, Op.hideTrayIcon trayDisplay,
        Op.showTrayIcon trayDisplay] dockedState = some (s5, tr) ∧
      s5.iconVisible = true ∧
      tr.filter isMapOrUnmap =
        [XCall.XMapWindow trayDisplay.handle dockedState.iconWindow,
         XCall.XUnmapWindow trayDisplay.handle dockedState.iconWindow,
         XCall.XMapWindow trayDisplay.handle dockedState.iconWindow] ∧
      hideTrayIcon trayDisplay dockedState = (dockedState, []) ∧
      runOps [Op.hideTrayIcon trayDisplay, Op.showTrayIcon trayDisplay,
        Op.hideTrayIcon trayDisplay] dockedState =
        some (dockedState, showCalls trayDisplay dockedState ++
          [XCall.XUnmapWindow trayDisplay.handle dockedState.iconWindow,
           XCall.XFlush trayDisplay.handle]) ∧
      hideTrayIcon trayDisplay dockedState = (dockedState, []) :=
  ⟨by decide, by decide, rfl,
   hide_show_hide_hide_show trayDisplay trayDisplay trayDisplay trayDisplay trayDisplay
     dockedState (by decide) (by decide) rfl⟩

/-- C6 as stated fails: on the sample connection, from the hidden docked state, the sequence
hide, show, hide, hide, show ends Shown after the calls map, unmap, map; its
`XMapWindow` / `XUnmapWindow` calls are three (each followed by its own `XFlush`), with a
single unmap, not two map/unmap pairs. -/
theorem two_map_unmap_pairs_refuted :
    ∃ s5 tr,
      runOps [Op.hideTrayIcon trayDisplay, Op.showTrayIcon trayDisplay,
        Op.hideTrayIcon trayDisplay, Op.hideTrayIcon trayDisplay,
        Op.showTrayIcon trayDisplay] dockedState = some (s5, tr) ∧
      s5.iconVisible = true ∧
      tr.filter isMapOrUnmap =
        [XCall.XMapWindow 1 600, XCall.XUnmapWindow 1 600, XCall.XMapWindow 1 600] ∧
      (tr.filter isFlush).length = 3 ∧
      ¬ twoMapUnmapPairs tr := by
  refine ⟨_, _, scenario_run trayDisplay trayDisplay trayDisplay trayDisplay trayDisplay
    dockedState (by decide) (by decide) rfl, rfl,
    scenario_mapUnmap trayDisplay trayDisplay trayDisplay dockedState, ?_, ?_⟩
  · rw [List.filter_append, List.filter_append, filter_showCalls_flush]
    rfl
  · rintro ⟨da, wa, db, wb, dc, wc, dd, wd, h⟩
    rw [scenario_mapUnmap trayDisplay trayDisplay trayDisplay dockedState] at h
    have hlen := congrArg List.length h
    simp only [List.length_cons, List.length_nil] at hlen
    omega

/-! ## Initialise, show, hide -/

theorem initTrayIcon_present (d : Display) (s : TrayState)
    (hown : d.getSelectionOwner
      (d.internAtom ("_NET_SYSTEM_TRAY_S" ++ toString d.defaultScreen) false) ≠ 0) :
    initTrayIcon d s =
      ({ traySelectionAtom :=
           d.internAtom ("_NET_SYSTEM_TRAY_S" ++ toString d.defaultScreen) false,
         trayOpcodeAtom := d.internAtom "_NET_SYSTEM_TRAY_OPCODE" false,
         trayWindow := d.getSelectionOwner
           (d.internAtom ("_NET_SYSTEM_TRAY_S" ++ toString d.defaultScreen) false),
         iconWindow := d.createSimpleWindow d.defaultRootWindow 0 0 ICON_SIZE ICON_SIZE 0 0 0,
         iconVisible := s.iconVisible,
         iconDisplay := d.handle },
       [XCall.XInternAtom d.handle ("_NET_SYSTEM_TRAY_S" ++ toString d.defaultScreen) false,
        XCall.XInternAtom d.handle "_NET_SYSTEM_TRAY_OPCODE" false,
        XCall.XGetSelectionOwner d.handle
          (d.internAtom ("_NET_SYSTEM_TRAY_S" ++ toString d.defaultScreen) false),
        XCall.XCreateSimpleWindow d.handle d.defaultRootWindow 0 0 ICON_SIZE ICON_SIZE 0 0 0,
        XCall.XSelectInput d.handle
          (d.createSimpleWindow d.defaultRootWindow 0 0 ICON_SIZE ICON_SIZE 0 0 0)
          (ExposureMask ||| StructureNotifyMask)]) := by
  unfold initTrayIcon
  simp only [hown, if_false]
  rfl

/-- C7: with a tray manager present (selection owner non-zero) and a non-zero icon window
created, `initTrayIcon` (on a hidden state) followed by `showTrayIcon` ends Shown, and the
calls of the show end with `XSetWindowBackgroundPixmap` on the icon window, `XFreePixmap`,
`XMapWindow` on the icon window, `XFlush`, in that order, no `XFlush` coming before; a
`hideTrayIcon` immediately afterwards issues exactly `XUnmapWindow` on the icon window then
`XFlush` (no pixmap call, no `XSendEvent`) and ends Hidden. -/
theorem init_show_hide_ordering (d0 d1 d2 : Display) (s0 : TrayState)
    (hv : s0.iconVisible = false)
    (hown : d0.getSelectionOwner
      (d0.internAtom ("_NET_SYSTEM_TRAY_S" ++ toString d0.defaultScreen) false) ≠ 0)
    (hwin : d0.createSimpleWindow d0.defaultRootWindow 0 0 ICON_SIZE ICON_SIZE 0 0 0 ≠ 0) :
    ∃ s1 render before pm s2 hidden,
      createIconPixmap d1 (initTrayIcon d0 s0).1.iconWindow = some (pm, render) ∧
      before = XCall.XSendEvent d1.handle (initTrayIcon d0 s0).1.trayWindow false NoEventMask
        (dockRequest (initTrayIcon d0 s0).1) :: render ∧
      (initTrayIcon d0 s0).1.iconWindow =
        d0.createSimpleWindow d0.defaultRootWindow 0 0 ICON_SIZE ICON_SIZE 0 0 0 ∧
      (initTrayIcon d0 s0).2.filter isFlush = [] ∧
      showTrayIcon d1 (initTrayIcon d0 s0).1 =
        some (s1, before ++
          [XCall.XSetWindowBackgroundPixmap d1.handle (initTrayIcon d0 s0).1.iconWindow pm,
           XCall.XFreePixmap d1.handle pm,
           XCall.XMapWindow d1.handle (initTrayIcon d0 s0).1.iconWindow,
           XCall.XFlush d1.handle]) ∧
      before.filter isFlush = [] ∧
      s1.iconVisible = true ∧
      hideTrayIcon d2 s1 = (s2, hidden) ∧
      hidden = [XCall.XUnmapWindow d2.handle (initTrayIcon d0 s0).1.iconWindow,
                XCall.XFlush d2.handle] ∧
      hidden.filter isPixmapCall = [] ∧ hidden.filter isSendEvent = [] ∧
      s2.iconVisible = false := by
  rw [initTrayIcon_present d0 s0 hown]
  refine ⟨_, _, _, _, _, _, createIconPixmap_eq d1 _, rfl, rfl, rfl,
    showTrayIcon_effective d1 _ hown hwin hv, ?_, rfl,
    hideTrayIcon_effective d2 _ hown hwin rfl, rfl, rfl, rfl, rfl⟩
  rw [List.filter_cons,
    filter_renderCalls d1 _ isFlush (by intro c; cases c <;> simp [isRenderCall, isFlush])]
  rfl

/-- C7 at the sample connection, from the initial state. -/
theorem init_show_hide_ordering_witness :
    initialState.iconVisible = false ∧
    trayDisplay.getSelectionOwner
      (trayDisplay.internAtom ("_NET_SYSTEM_TRAY_S" ++ toString trayDisplay.defaultScreen)
        false) ≠ 0 ∧
    trayDisplay.createSimpleWindow trayDisplay.defaultRootWindow 0 0 ICON_SIZE ICON_SIZE 0 0 0
      ≠ 0 ∧
    ∃ s1 render before pm s2 hidden,
      createIconPixmap trayDisplay (initTrayIcon trayDisplay initialState).1.iconWindow =
        some (pm, render) ∧
      before = XCall.XSendEvent trayDisplay.handle
        (initTrayIcon trayDisplay initialState).1.trayWindow false NoEventMask
        (dockRequest (initTrayIcon trayDisplay initialState).1) :: render ∧
      (initTrayIcon trayDisplay initialState).1.iconWindow =
        trayDisplay.createSimpleWindow trayDisplay.defaultRootWindow 0 0 ICON_SIZE ICON_SIZE
          0 0 0 ∧
      (initTrayIcon trayDisplay initialState).2.filter isFlush = [] ∧
      showTrayIcon trayDisplay (initTrayIcon trayDisplay initialState).1 =
        some (s1, before ++
          [XCall.XSetWindowBackgroundPixmap trayDisplay.handle
             (initTrayIcon trayDisplay initialState).1.iconWindow pm,
           XCall.XFreePixmap trayDisplay.handle pm,
           XCall.XMapWindow trayDisplay.handle
             (initTrayIcon trayDisplay initialState).1.iconWindow,
           XCall.XFlush trayDisplay.handle]) ∧
      before.filter isFlush = [] ∧
      s1.iconVisible = true ∧
      hideTrayIcon trayDisplay s1 = (s2, hidden) ∧
      hidden = [XCall.XUnmapWindow trayDisplay.handle
                  (initTrayIcon trayDisplay initialState).1.iconWindow,
                XCall.XFlush trayDisplay.handle] ∧
      hidden.filter isPixmapCall = [] ∧ hidden.filter isSendEvent = [] ∧
      s2.iconVisible = false :=
  ⟨rfl, by decide, by decide,
   init_show_hide_ordering trayDisplay trayDisplay trayDisplay initialState rfl
     (by decide) (by decide)⟩

/-! ## The visibility invariant -/

theorem step_spec (op : Op) (s : TrayState) :
    ∃ s1 t1, step op s = some (s1, t1) ∧
      s1.trayWindow = s.trayWindow ∧ s1.iconWindow = s.iconWindow ∧
      s1.traySelectionAtom = s.traySelectionAtom ∧ s1.trayOpcodeAtom = s.trayOpcodeAtom ∧
      (s.iconVisible = false → s1.iconVisible = true →
        (∃ d, op = Op.showTrayIcon d) ∧ s.trayWindow ≠ 0 ∧ s.iconWindow ≠ 0) ∧
      (s.iconVisible = true → s1.iconVisible = false → ∃ d, op = Op.hideTrayIcon d) := by
  cases op with
  | showTrayIcon d =>
    obtain ⟨s1, t1, h1, ht, hi, ha, hb, _, hv⟩ := showTrayIcon_total d s
    refine ⟨s1, t1, h1, ht, hi, ha, hb, ?_, ?_⟩
    · intro hs hs1
      rcases hv.1 hs1 with h | h
      · rw [hs] at h
        cases h
      · exact ⟨⟨d, rfl⟩, h⟩
    · intro hs hs1
      rw [hv.2 (Or.inl hs)] at hs1
      cases hs1
  | hideTrayIcon d =>
    obtain ⟨ht, hi, ha, hb, _, hv⟩ := hideTrayIcon_frame d s
    refine ⟨(hideTrayIcon d s).1, (hideTrayIcon d s).2, rfl, ht, hi, ha, hb, ?_, ?_⟩
    · intro hs hs1
      rw [hv hs1] at hs
      cases hs
    · intro _ _
      exact ⟨d, rfl⟩

theorem runOps_invariant :
    ∀ (ops : List Op) (s : TrayState),
      (s.iconVisible = true → s.trayWindow ≠ 0 ∧ s.iconWindow ≠ 0) →
      ∃ sN tr, runOps ops s = some (sN, tr) ∧
        (sN.iconVisible = true → sN.trayWindow ≠ 0 ∧ sN.iconWindow ≠ 0) := by
  intro ops
  induction ops with
  | nil => intro s hs; exact ⟨s, [], rfl, hs⟩
  | cons op ops ih =>
    intro s hs
    obtain ⟨s1, t1, h1, ht, hi, _, _, hup, _⟩ := step_spec op s
    have hs1 : s1.iconVisible = true → s1.trayWindow ≠ 0 ∧ s1.iconWindow ≠ 0 := by
      intro hv1
      rw [ht, hi]
      cases hv : s.iconVisible
      · exact (hup hv hv1).2
      · exact hs hv
    obtain ⟨sN, tr, hN, hinv⟩ := ih s1 hs1
    refine ⟨sN, t1 ++ tr, ?_, hinv⟩
    rw [runOps_cons op ops s s1 t1 h1, hN]
    rfl

/-- C10: after one `initTrayIcon` on the initial state and any finite sequence of
`showTrayIcon` / `hideTrayIcon` calls (which always runs to completion), `iconVisible = True`
implies `trayWindow != 0` and `iconWindow != 0`; and for every state and every single call:
the call completes, leaves `trayWindow`, `iconWindow` and both atoms unchanged, turns Hidden
into Shown only if it is a `showTrayIcon` entered with both windows non-zero, and turns Shown
into Hidden only if it is a `hideTrayIcon`. -/
theorem visibility_invariant (d0 : Display) (ops : List Op) (op : Op) (s : TrayState) :
    (initTrayIcon d0 initialState).1.iconVisible = false ∧
    (∃ sN tr, runOps ops (initTrayIcon d0 initialState).1 = some (sN, tr) ∧
      (sN.iconVisible = true → sN.trayWindow ≠ 0 ∧ sN.iconWindow ≠ 0)) ∧
    (∃ s1 t1, step op s = some (s1, t1) ∧
      s1.trayWindow = s.trayWindow ∧ s1.iconWindow = s.iconWindow ∧
      s1.traySelectionAtom = s.traySelectionAtom ∧ s1.trayOpcodeAtom = s.trayOpcodeAtom ∧
      (s.iconVisible = false → s1.iconVisible = true →
        (∃ d, op = Op.showTrayIcon d) ∧ s.trayWindow ≠ 0 ∧ s.iconWindow ≠ 0) ∧
      (s.iconVisible = true → s1.iconVisible = false → ∃ d, op = Op.hideTrayIcon d)) := by
  have h0 : (initTrayIcon d0 initialState).1.iconVisible = false :=
    (initTrayIcon_atoms d0 initialState).2.2.2.1
  refine ⟨h0, runOps_invariant ops _ ?_, step_spec op s⟩
  intro hv
  rw [h0] at hv
  cases hv

/-- C10 on the sample connection: after `initTrayIcon` and one `showTrayIcon` the icon is
Shown, so the invariant is not vacuous there. -/
theorem visibility_invariant_witness :
    (∃ s1 t1, runOps [Op.showTrayIcon trayDisplay] (initTrayIcon trayDisplay initialState).1 =
        some (s1, t1) ∧ s1.iconVisible = true) ∧
    (∃ sN tr, runOps [Op.showTrayIcon trayDisplay] (initTrayIcon trayDisplay initialState).1 =
        some (sN, tr) ∧
      (sN.iconVisible = true → sN.trayWindow ≠ 0 ∧ sN.iconWindow ≠ 0)) :=
  ⟨⟨_, _, runOps_single _ _ _ _
      (showTrayIcon_effective trayDisplay (initTrayIcon trayDisplay initialState).1
        (by rw [initTrayIcon_present trayDisplay initialState (by decide)]; decide)
        (by rw [initTrayIcon_present trayDisplay initialState (by decide)]; decide)
        (initTrayIcon_atoms trayDisplay initialState).2.2.2.1), rfl⟩,
   (visibility_invariant trayDisplay [Op.showTrayIcon trayDisplay]
      (Op.showTrayIcon trayDisplay) dockedState).2.1⟩

/-! ## The rendered pixmap -/

theorem glyphCells_chars :
    ∀ e ∈ glyphCells, e.2 = ' ' ∨ e.2 = '.' ∨ e.2 = '+' ∨ e.2 = '@' := by decide

theorem spaceCount_eq : spaceCount = 346 := by decide

theorem glyphCells_background_count :
    (glyphCells.filter fun e => e.2 ≠ '.' ∧ e.2 ≠ '+' ∧ e.2 ≠ '@').length = spaceCount := by
  decide

theorem glyphCells_space_count :
    (glyphCells.filter fun e => e.2 = ' ').length = spaceCount := by
  decide

theorem filter_drawPoint_cells (d : Display) (w : Nat) :
    ∀ cells : List ((Nat × Nat) × Char),
      (cells.flatMap (cellCalls d w)).filter isDrawPoint =
        cells.map fun e => XCall.XDrawPoint d.handle (pixmapOf d w) (gcOf d w) e.1.1 e.1.2 := by
  intro cells
  induction cells with
  | nil => rfl
  | cons e es ih =>
    rw [List.flatMap_cons, List.filter_append, ih]
    rfl

theorem filter_drawPoint_render (d : Display) (w : Nat) (cells : List ((Nat × Nat) × Char)) :
    ([XCall.XAllocNamedColor d.handle (d.defaultColormap d.defaultScreen) "red",
      XCall.XCreatePixmap d.handle w ICON_SIZE ICON_SIZE (d.defaultDepth d.defaultScreen),
      XCall.XCreateGC d.handle (pixmapOf d w) 0]
      ++ cells.flatMap (cellCalls d w) ++ [XCall.XFreeGC d.handle (gcOf d w)]).filter
        isDrawPoint =
      (cells.map Prod.fst).map fun p =>
        XCall.XDrawPoint d.handle (pixmapOf d w) (gcOf d w) p.1 p.2 := by
  rw [List.filter_append, List.filter_append, filter_drawPoint_cells, List.map_map]
  have h1 : ([XCall.XAllocNamedColor d.handle (d.defaultColormap d.defaultScreen) "red",
      XCall.XCreatePixmap d.handle w ICON_SIZE ICON_SIZE (d.defaultDepth d.defaultScreen),
      XCall.XCreateGC d.handle (pixmapOf d w) 0]).filter isDrawPoint = [] := rfl
  have h2 : ([XCall.XFreeGC d.handle (gcOf d w)]).filter isDrawPoint = [] := rfl
  rw [h1, h2, List.nil_append, List.append_nil]
  rfl

theorem filter_drawPoint_renderCalls (d : Display) (w : Nat) :
    (renderCalls d w).filter isDrawPoint =
      gridCoords.map fun p => XCall.XDrawPoint d.handle (pixmapOf d w) (gcOf d w) p.1 p.2 := by
  rw [← glyphCells_coords]
  exact filter_drawPoint_render d w glyphCells

theorem pixelAt_renderCalls (d : Display) (w x y : Nat) (c : Char) (fg : Nat → Nat)
    (hx : x < 24) (hy : y < 24) (hc : glyphAt x y = some c) :
    pixelAt (plotted fg (renderCalls d w)) (x, y) =
      some (colourOf (d.blackPixel d.defaultScreen) (accentPixel d)
        (d.whitePixel d.defaultScreen) c) := by
  rw [plotted_renderCalls]
  exact pixelAt_present
    (colourOf (d.blackPixel d.defaultScreen) (accentPixel d) (d.whitePixel d.defaultScreen))
    glyphCells (by rw [glyphCells_coords]; exact gridCoords_nodup) ((x, y), c)
    (mem_glyphCells x y c hx hy hc)

theorem pixelAt_renderCalls_outside (d : Display) (w : Nat) (p : Nat × Nat) (fg : Nat → Nat)
    (hp : p ∉ gridCoords) : pixelAt (plotted fg (renderCalls d w)) p = none := by
  rw [plotted_renderCalls]
  exact pixelAt_absent _ p glyphCells (by rw [glyphCells_coords]; exact hp)

/-! ## Rendering: order, bounds, colours -/


/-- C9: `createIconPixmap` completes and issues, after `XAllocNamedColor`, `XCreatePixmap`
and `XCreateGC` and before `XFreeGC`, exactly one `XSetForeground` / `XDrawPoint` pair per
cell of the glyph, in row-major order (y outer, x inner, each coordinate of the 24x24 grid
exactly once); the foreground set just before the point at `(x, y)` is
`colourOf (lockSlashXpm[y + 5][x])`, so the resulting pixmap holds that colour at `(x, y)`
and nothing outside the grid. -/
theorem createIconPixmap_renders_glyph (d : Display) (w : Nat) (fg : Nat → Nat) :
    createIconPixmap d w = some (pixmapOf d w, renderCalls d w) ∧
    (renderCalls d w).filter isDrawPoint =
      gridCoords.map (fun p =>
        XCall.XDrawPoint d.handle (pixmapOf d w) (gcOf d w) p.1 p.2) ∧
    gridCoords.Pairwise (fun p q => p.2 < q.2 ∨ (p.2 = q.2 ∧ p.1 < q.1)) ∧
    gridCoords.Nodup ∧
    (∀ p, p ∈ gridCoords ↔ p.1 < 24 ∧ p.2 < 24) ∧
    glyphCells.map Prod.fst = gridCoords ∧
    (∀ e ∈ glyphCells, glyphAt e.1.1 e.1.2 = some e.2) ∧
    plotted fg (renderCalls d w) =
      glyphCells.map (fun e => (e.1,
        colourOf (d.blackPixel d.defaultScreen) (accentPixel d)
          (d.whitePixel d.defaultScreen) e.2)) ∧
    (∀ x y c, x < 24 → y < 24 → glyphAt x y = some c →
      pixelAt (plotted fg (renderCalls d w)) (x, y) =
        some (colourOf (d.blackPixel d.defaultScreen) (accentPixel d)
          (d.whitePixel d.defaultScreen) c)) ∧
    (∀ p, p ∉ gridCoords → pixelAt (plotted fg (renderCalls d w)) p = none) :=
  ⟨createIconPixmap_eq d w, filter_drawPoint_renderCalls d w, gridCoords_rowMajor,
   gridCoords_nodup, mem_gridCoords, glyphCells_coords, glyphCells_glyphAt,
   plotted_renderCalls d w fg,
   fun x y c hx hy hc => pixelAt_renderCalls d w x y c fg hx hy hc,
   fun p hp => pixelAt_renderCalls_outside d w p fg hp⟩

/-- C8: for every cell `(x, y)` the loops of `createIconPixmap` visit (`x < 24`, `y < 24`),
`y + 5` is a valid index of `lockSlashXpm` (29 entries) and `x` a valid index of that row
(24 characters), so both reads succeed; both loop guards hold there, so the secondary guards
`y + 5 < 29` and `x < 24` end neither loop early; `createIconPixmap` never takes the
out-of-bounds branch and plots exactly the coordinates of the 24x24 grid. -/
theorem glyph_reads_in_bounds (d : Display) (w x y : Nat) (hx : x < 24) (hy : y < 24) :
    lockSlashXpm.length = 29 ∧
    y + 5 < lockSlashXpm.length ∧
    (∃ line c, lockSlashXpm[y + 5]? = some line ∧ line.toList.length = 24 ∧
      x < line.toList.length ∧ line.toList[x]? = some c ∧ glyphAt x y = some c) ∧
    (y < ICON_SIZE ∧ y + 5 < 29) ∧ (x < ICON_SIZE ∧ x < 24) ∧
    (∀ j, j < ICON_SIZE → j + 5 < 29) ∧ (∀ i, i < ICON_SIZE → i < 24) ∧
    (∃ tr, createIconPixmap d w = some (pixmapOf d w, tr) ∧
      (plotted (fun _ => 0) tr).map Prod.fst = gridCoords) := by
  have hrow := lockSlashXpm_rows y hy
  have hline : ∃ line c, lockSlashXpm[y + 5]? = some line ∧ line.toList.length = 24 ∧
      x < line.toList.length ∧ line.toList[x]? = some c ∧ glyphAt x y = some c := by
    cases hl : lockSlashXpm[y + 5]? with
    | none => rw [hl] at hrow; cases hrow
    | some line =>
      rw [hl] at hrow
      simp only [Option.map_some', Option.some.injEq] at hrow
      have hxl : x < line.toList.length := by omega
      refine ⟨line, line.toList[x], rfl, hrow, hxl, List.getElem?_eq_getElem hxl, ?_⟩
      unfold glyphAt
      rw [hl]
      exact List.getElem?_eq_getElem hxl
  refine ⟨lockSlashXpm_length, by rw [lockSlashXpm_length]; omega, hline,
    ⟨by unfold ICON_SIZE; omega, by omega⟩, ⟨by unfold ICON_SIZE; omega, hx⟩,
    fun j hj => by unfold ICON_SIZE at hj; omega, fun i hi => hi,
    renderCalls d w, createIconPixmap_eq d w, ?_⟩
  rw [plotted_renderCalls, List.map_map, ← glyphCells_coords]
  rfl

/-- C8 at the cell `(22, 23)` of the last row visited. -/
theorem glyph_reads_in_bounds_witness :
    22 < 24 ∧ 23 < 24 ∧
    lockSlashXpm.length = 29 ∧
    23 + 5 < lockSlashXpm.length ∧
    (∃ line c, lockSlashXpm[23 + 5]? = some line ∧ line.toList.length = 24 ∧
      22 < line.toList.length ∧ line.toList[22]? = some c ∧ glyphAt 22 23 = some c) ∧
    (23 < ICON_SIZE ∧ 23 + 5 < 29) ∧ (22 < ICON_SIZE ∧ 22 < 24) ∧
    (∀ j, j < ICON_SIZE → j + 5 < 29) ∧ (∀ i, i < ICON_SIZE → i < 24) ∧
    (∃ tr, createIconPixmap trayDisplay 600 = some (pixmapOf trayDisplay 600, tr) ∧
      (plotted (fun _ => 0) tr).map Prod.fst = gridCoords) :=
  ⟨by decide, by decide,
   glyph_reads_in_bounds trayDisplay 600 22 23 (by decide) (by decide)⟩


theorem colourOf_mem (b a w : Nat) (c : Char) :
    colourOf b a w c = b ∨ colourOf b a w c = a ∨ colourOf b a w c = w ∨
      colourOf b a w c = 0xC0C0C0 := by
  unfold colourOf
  split_ifs <;> simp

theorem colourOf_background_iff (b a w : Nat) (c : Char)
    (hb : b ≠ 0xC0C0C0) (ha : a ≠ 0xC0C0C0) (hw : w ≠ 0xC0C0C0) :
    colourOf b a w c = 0xC0C0C0 ↔ (c ≠ '.' ∧ c ≠ '+' ∧ c ≠ '@') := by
  unfold colourOf
  split_ifs with h1 h2 h3
  · simp [h1, hb]
  · simp [h2, ha]
  · simp [h3, hw]
  · simp [h1, h2, h3]

theorem background_count (b a w : Nat)
    (hb : b ≠ 0xC0C0C0) (ha : a ≠ 0xC0C0C0) (hw : w ≠ 0xC0C0C0) :
    ∀ cells : List ((Nat × Nat) × Char),
      ((cells.map fun e => (e.1, colourOf b a w e.2)).filter fun q => q.2 = 0xC0C0C0).length =
        (cells.filter fun e => e.2 ≠ '.' ∧ e.2 ≠ '+' ∧ e.2 ≠ '@').length := by
  intro cells
  induction cells with
  | nil => rfl
  | cons e es ih =>
    have hiff := colourOf_background_iff b a w e.2 hb ha hw
    by_cases hc : colourOf b a w e.2 = 0xC0C0C0
    · have hc2 := hiff.1 hc
      rw [List.map_cons, List.filter_cons_of_pos (by simpa using hc),
        List.filter_cons_of_pos (by simpa using hc2), List.length_cons, List.length_cons, ih]
    · have hc2 := fun h => hc (hiff.2 h)
      rw [List.map_cons, List.filter_cons_of_neg (by simpa using hc),
        List.filter_cons_of_neg (by simpa using hc2), ih]

/-- C4: one call of `createIconPixmap` issues exactly 24*24 = 576 `XDrawPoint` calls; the
foreground in force at each is `BlackPixel`, the resolved accent pixel, `WhitePixel` or
0xC0C0C0; every cell of the glyph region is one of space, `.`, `+`, `@`, so the cells that
reach the final `else` (neither `.` nor `+` nor `@`) are exactly the spaces, 346 of them; and
when none of the three other colours happens to be 0xC0C0C0, the points plotted with
foreground 0xC0C0C0 number as many as the spaces of the region. -/
theorem glyph_bounds (d : Display) (w : Nat) (fg : Nat → Nat) :
    ∃ tr, createIconPixmap d w = some (pixmapOf d w, tr) ∧
      (tr.filter isDrawPoint).length = 24 * 24 ∧
      plotted fg tr =
        glyphCells.map (fun e => (e.1,
          colourOf (d.blackPixel d.defaultScreen) (accentPixel d)
            (d.whitePixel d.defaultScreen) e.2)) ∧
      (plotted fg tr).length = 576 ∧
      (∀ q ∈ plotted fg tr,
        q.2 = d.blackPixel d.defaultScreen ∨ q.2 = accentPixel d ∨
        q.2 = d.whitePixel d.defaultScreen ∨ q.2 = 0xC0C0C0) ∧
      (∀ e ∈ glyphCells, e.2 = ' ' ∨ e.2 = '.' ∨ e.2 = '+' ∨ e.2 = '@') ∧
      (glyphCells.filter fun e => e.2 ≠ '.' ∧ e.2 ≠ '+' ∧ e.2 ≠ '@') =
        glyphCells.filter (fun e => e.2 = ' ') ∧
      (glyphCells.filter fun e => e.2 ≠ '.' ∧ e.2 ≠ '+' ∧ e.2 ≠ '@').length = spaceCount ∧
      spaceCount = 346 ∧
      (d.blackPixel d.defaultScreen ≠ 0xC0C0C0 → accentPixel d ≠ 0xC0C0C0 →
        d.whitePixel d.defaultScreen ≠ 0xC0C0C0 →
        ((plotted fg tr).filter fun q => q.2 = 0xC0C0C0).length = spaceCount) := by
  refine ⟨renderCalls d w, createIconPixmap_eq d w, ?_, plotted_renderCalls d w fg, ?_, ?_,
    glyphCells_chars, ?_, glyphCells_background_count, spaceCount_eq, ?_⟩
  · rw [filter_drawPoint_renderCalls, List.length_map, ← glyphCells_coords, List.length_map,
      glyphCells_length]
  · rw [plotted_renderCalls, List.length_map, glyphCells_length]
  · intro q hq
    rw [plotted_renderCalls] at hq
    obtain ⟨e, _, rfl⟩ := List.mem_map.1 hq
    exact colourOf_mem _ _ _ e.2
  · decide
  · intro hb ha hw
    rw [plotted_renderCalls, background_count _ _ _ hb ha hw glyphCells,
      glyphCells_background_count]

/-- C4 on the sample true-colour connection, where black, red and white all differ from
0xC0C0C0: the points plotted with foreground 0xC0C0C0 are as many as the spaces. -/
theorem glyph_bounds_witness :
    ∃ tr, createIconPixmap trayDisplay 600 = some (pixmapOf trayDisplay 600, tr) ∧
      (tr.filter isDrawPoint).length = 24 * 24 ∧
      ((plotted (fun _ => 0) tr).filter fun q => q.2 = 0xC0C0C0).length = spaceCount :=
  match glyph_bounds trayDisplay 600 (fun _ => 0) with
  | ⟨tr, h1, h2, _, _, _, _, _, _, _, h9⟩ =>
    ⟨tr, h1, h2, h9 (by decide) (by decide) (by decide)⟩

/-- C3: `createIconPixmap` always completes and returns the pixmap `XCreatePixmap` gave.
For a cell `(x, y)` of the grid holding character `c`: when `XAllocNamedColor` for "red"
returns 0, a `+` cell and an `@` cell are both left at `WhitePixel`; when it returns
non-zero, a `+` cell is left at the allocated pixel; and a `.` cell is left at `BlackPixel`,
an `@` cell at `WhitePixel`, a space cell at 0xC0C0C0, whatever the allocation returned. -/
theorem colour_fallback (d : Display) (w x y : Nat) (c : Char) (fg : Nat → Nat)
    (hx : x < 24) (hy : y < 24) (hc : glyphAt x y = some c) :
    ∃ tr,
      createIconPixmap d w =
        some (d.createPixmap w ICON_SIZE ICON_SIZE (d.defaultDepth d.defaultScreen), tr) ∧
      ((d.allocNamedColor (d.defaultColormap d.defaultScreen) "red").1 = 0 →
        (c = '+' ∨ c = '@') →
        pixelAt (plotted fg tr) (x, y) = some (d.whitePixel d.defaultScreen)) ∧
      ((d.allocNamedColor (d.defaultColormap d.defaultScreen) "red").1 ≠ 0 → c = '+' →
        pixelAt (plotted fg tr) (x, y) =
          some (d.allocNamedColor (d.defaultColormap d.defaultScreen) "red").2) ∧
      (c = '.' → pixelAt (plotted fg tr) (x, y) = some (d.blackPixel d.defaultScreen)) ∧
      (c = '@' → pixelAt (plotted fg tr) (x, y) = some (d.whitePixel d.defaultScreen)) ∧
      (c = ' ' → pixelAt (plotted fg tr) (x, y) = some 0xC0C0C0) := by
  refine ⟨renderCalls d w, createIconPixmap_eq d w, ?_, ?_, ?_, ?_, ?_⟩
  · intro hfail hcell
    rw [pixelAt_renderCalls d w x y c fg hx hy hc]
    rcases hcell with rfl | rfl
    · simp [colourOf, accentPixel, hfail]
    · simp [colourOf]
  · intro hok hcell
    rw [pixelAt_renderCalls d w x y c fg hx hy hc, hcell]
    simp [colourOf, accentPixel, hok]
  · intro hcell
    rw [pixelAt_renderCalls d w x y c fg hx hy hc, hcell]
    simp [colourOf]
  · intro hcell
    rw [pixelAt_renderCalls d w x y c fg hx hy hc, hcell]
    simp [colourOf]
  · intro hcell
    rw [pixelAt_renderCalls d w x y c fg hx hy hc, hcell]
    simp [colourOf]

/-- C3 at the accent cell `(9, 7)` on the sample connection where allocating "red" fails. -/
theorem colour_fallback_witness :
    9 < 24 ∧ 7 < 24 ∧ glyphAt 9 7 = some '+' ∧
    ∃ tr,
      createIconPixmap noColourDisplay 600 =
        some (noColourDisplay.createPixmap 600 ICON_SIZE ICON_SIZE
          (noColourDisplay.defaultDepth noColourDisplay.defaultScreen), tr) ∧
      ((noColourDisplay.allocNamedColor
          (noColourDisplay.defaultColormap noColourDisplay.defaultScreen) "red").1 = 0 →
        ('+' = '+' ∨ '+' = '@') →
        pixelAt (plotted (fun _ => 0) tr) (9, 7) =
          some (noColourDisplay.whitePixel noColourDisplay.defaultScreen)) ∧
      ((noColourDisplay.allocNamedColor
          (noColourDisplay.defaultColormap noColourDisplay.defaultScreen) "red").1 ≠ 0 →
        '+' = '+' →
        pixelAt (plotted (fun _ => 0) tr) (9, 7) =
          some (noColourDisplay.allocNamedColor
            (noColourDisplay.defaultColormap noColourDisplay.defaultScreen) "red").2) ∧
      ('+' = '.' → pixelAt (plotted (fun _ => 0) tr) (9, 7) =
        some (noColourDisplay.blackPixel noColourDisplay.defaultScreen)) ∧
      ('+' = '@' → pixelAt (plotted (fun _ => 0) tr) (9, 7) =
        some (noColourDisplay.whitePixel noColourDisplay.defaultScreen)) ∧
      ('+' = ' ' → pixelAt (plotted (fun _ => 0) tr) (9, 7) = some 0xC0C0C0) :=
  ⟨by decide, by decide, by decide,
   colour_fallback noColourDisplay 600 9 7 '+' (fun _ => 0) (by decide) (by decide) (by decide)⟩

end TrayIcon
